import Mathlib

/-!
Verification of the django-utils repository (modules `core_utils/fields.py`
and `core_utils/models.py`) against its natural-language specification.

The embedding is shallow: Python dictionaries of field options become
association lists over a small universe `PyVal` of Python values, the field
factory functions become Lean functions from a keyword dictionary to a
`Field` descriptor, and the model/manager operations become explicit state
transformers or `Except`-valued lookups.
-/

namespace DjangoUtils

/-- Universe of Python values appearing as field options in the source:
booleans, integers, numeric floats (only `0.0` occurs, modelled as a
rational), strings, references to Python objects (classes such as `User`,
functions such as `uuid.uuid4`, the `models.PROTECT` sentinel), lists of
function references (the `validators=[...]` option of the latitude and
longitude factories), and `[validators.URLValidator(schemes=...)]`
validator lists. `PyVal.none` models Python `None`. -/
inductive PyVal where
  | none
  | bool (b : Bool)
  | int (n : Int)
  | float (q : Rat)
  | str (s : String)
  | ref (name : String)
  | refList (names : List String)
  | urlValidators (schemes : List String)
deriving DecidableEq

/-- Python truthiness of a `PyVal`, as used by the `or` operator in
`related_name or '{}_set'.format(...)` (fields.py line 182): `None`, `False`,
zero, the empty string and the empty list are falsy. -/
def PyVal.truthy : PyVal → Bool
  | PyVal.none => false
  | PyVal.bool b => b
  | PyVal.int n => decide (n ≠ 0)
  | PyVal.float q => decide (q ≠ 0)
  | PyVal.str s => decide (s ≠ "")
  | PyVal.ref _ => true
  | PyVal.refList l => decide (l ≠ [])
  | PyVal.urlValidators _ => true

/-- A Python `dict` of keyword options, modelled as an association list in
insertion order with no duplicate keys. -/
abbrev Dict := List (String × PyVal)

/-- Dictionary lookup: the value at the first occurrence of the key. -/
def Dict.get : Dict → String → Option PyVal
  | [], _ => Option.none
  | (k, v) :: rest, key => if k = key then some v else Dict.get rest key

/-- Key-membership test. -/
def Dict.hasKey (d : Dict) (key : String) : Bool :=
  (Dict.get d key).isSome

/-- Python `d[key] = v`: replace the value in place when the key is present
(keeping its position), otherwise append the pair at the end. -/
def Dict.setKey : Dict → String → PyVal → Dict
  | [], key, v => [(key, v)]
  | (k, w) :: rest, key, v =>
    if k = key then (key, v) :: rest else (k, w) :: Dict.setKey rest key v

/-- Python `d.update(kwargs)`: assign every key of `kwargs` into `d`, in
order. This is the merge every factory performs via `defaults.update(kwargs)`. -/
def Dict.update (d : Dict) (kwargs : Dict) : Dict :=
  kwargs.foldl (fun acc kv => Dict.setKey acc kv.1 kv.2) d

/-- Python `d.pop(key, None)` restricted to the removal part: drop the first
occurrence of the key. -/
def Dict.erase : Dict → String → Dict
  | [], _ => []
  | (k, w) :: rest, key =>
    if k = key then rest else (k, w) :: Dict.erase rest key

/-- The keys of a dictionary, in order. -/
def Dict.keys (d : Dict) : List String :=
  d.map Prod.fst

/-- Extensional equality of two dictionaries as finite maps: each binds
exactly the keys of the other, to the same values. -/
def Dict.sameAs (d1 d2 : Dict) : Bool :=
  d1.all (fun p => decide (Dict.get d2 p.1 = some p.2)) &&
    d2.all (fun p => decide (Dict.get d1 p.1 = some p.2))

/-! ## The inflection library

`models.py` and `fields.py` use `inflection.underscore` and
`inflection.camelize` from the third-party `inflection` package.  Both are
modelled character by character after that package's regular-expression
implementation. -/

/-- First substitution of `inflection.underscore`: the regex
`([A-Z]+)([A-Z][a-z])` is replaced by `\1_\2`, i.e. an underscore is
inserted between two upper-case letters when the second is followed by a
lower-case letter. -/
def underscoreSub1 : List Char → List Char
  | c1 :: c2 :: c3 :: rest =>
    if c1.isUpper && c2.isUpper && c3.isLower then
      c1 :: '_' :: underscoreSub1 (c2 :: c3 :: rest)
    else
      c1 :: underscoreSub1 (c2 :: c3 :: rest)
  | l => l

/-- Second substitution of `inflection.underscore`: the regex
`([a-z\d])([A-Z])` is replaced by `\1_\2`, i.e. an underscore is inserted
between a lower-case letter or digit and an upper-case letter. -/
def underscoreSub2 : List Char → List Char
  | c1 :: c2 :: rest =>
    if (c1.isLower || c1.isDigit) && c2.isUpper then
      c1 :: '_' :: underscoreSub2 (c2 :: rest)
    else
      c1 :: underscoreSub2 (c2 :: rest)
  | l => l

/-- `inflection.underscore`: the two substitutions above, then `-` replaced
by `_`, then lower-casing. -/
def underscore (s : String) : String :=
  String.mk
    (((underscoreSub2 (underscoreSub1 s.data)).map
      (fun c => if c = '-' then '_' else c)).map Char.toLower)

/-- Worker for `camelize`: the regex `(?:^|_)(.)` is replaced by the
upper-cased captured character, so the first character is upper-cased and
every `_c` pair becomes the upper-cased `c`. The flag records whether the
scanner is at the start of the string. -/
def camelizeAux : Bool → List Char → List Char
  | _, [] => []
  | true, c :: rest => c.toUpper :: camelizeAux false rest
  | false, '_' :: c :: rest => c.toUpper :: camelizeAux false rest
  | false, c :: rest => c :: camelizeAux false rest

/-- `inflection.camelize` with its default `uppercase_first_letter=True`. -/
def camelize (s : String) : String :=
  String.mk (camelizeAux true s.data)

/-! ## Shared constants

`models.py` imports `SITE_LABEL` and `UNKNOWN` from `core_utils.constants`,
a module of this repository that is not part of the two provided source
files. -/

/-- Modelled from the spec: `SITE_LABEL` from the shared constants module
(`core_utils.constants`, not in the provided sources) is a fixed string
constant used as the default table-name prefix. Its exact value is not
given by the spec; the claims that mention it do not depend on the value,
so an arbitrary fixed string is used. -/
def SITE_LABEL : String := "sl"

/-- Modelled from the spec: `UNKNOWN` from the shared constants module
(`core_utils.constants`, not in the provided sources) is "the fixed string
literal used as fallback lookup key", the sentinel reference-data name
`UNKNOWN`. -/
def UNKNOWN : String := "UNKNOWN"

/-! ## models.py: naming helpers -/

/-- Python `x or default` for an optional string: `None` and the empty
string are falsy and yield the default. -/
def pyStrOr (s : Option String) (dflt : String) : String :=
  match s with
  | Option.none => dflt
  | some t => if t = "" then dflt else t

/-- `verbose_class_name` (models.py lines 24-29): underscore the class name,
then replace each `_` with a space. -/
def verbose_class_name (cls_name : String) : String :=
  String.mk ((underscore cls_name).data.map (fun c => if c = '_' then ' ' else c))

/-- `db_table_for_class` (models.py lines 38-42): underscore the class name. -/
def db_table_for_class (cls_name : String) : String :=
  underscore cls_name

/-- `db_table_for_app_and_class` (models.py lines 45-49). The body computes
`site_label = site_label or constants.SITE_LABEL` and formats
`'{}_{}_{}'.format(site_label, app_name, table_name)`. Note that in the
source the `site_label` parameter has NO default value; the argument (which
may be `None`) must be supplied. -/
def db_table_for_app_and_class (app_name table_name : String) (site_label : Option String) : String :=
  let sl := pyStrOr site_label SITE_LABEL
  sl ++ "_" ++ app_name ++ "_" ++ table_name

/-- `db_table` (models.py lines 52-56): in the source `site_label` defaults
to `None` and is passed through to `db_table_for_app_and_class`. -/
def db_table (app_name cls_name : String) (site_label : Option String) : String :=
  db_table_for_app_and_class app_name (db_table_for_class cls_name) site_label

/-! ## Python positional-call arity

Whether a Python positional call binds is decided by the callee's parameter
count and how many of its parameters carry default values. This is needed
for the call `db_table_for_app_and_class(app_label, table_name)` made inside
the `meta` decorator (models.py line 73). -/

/-- A Python function signature: total number of parameters (excluding any
`*args`/`**kwargs`) and how many of them carry default values. -/
structure PySig where
  params : Nat
  defaults : Nat
deriving DecidableEq

/-- A Python positional call with `n` arguments binds successfully iff every
parameter without a default receives an argument and no extra arguments are
passed: `params - defaults ≤ n ≤ params`. Otherwise the call raises
`TypeError`. -/
def pythonCallOk (sig : PySig) (n : Nat) : Bool :=
  decide (sig.params - sig.defaults ≤ n) && decide (n ≤ sig.params)

/-- Signature of `db_table_for_app_and_class` (models.py line 45):
`def db_table_for_app_and_class(app_name, table_name, site_label)` — three
parameters, none of which has a default value. -/
def db_table_for_app_and_class_sig : PySig :=
  { params := 3, defaults := 0 }

/-- The `meta` decorator's internal call
`db_table_for_app_and_class(app_label, table_name)` (models.py line 73)
passes exactly two positional arguments. -/
def meta_table_call_argcount : Nat := 2

/-! ## models.py: VersionedModel.save -/

/-- The in-memory state of a `VersionedModel` instance restricted to the
attributes that `VersionedModel.save` reads or writes: the integer
`version` counter and the two user references that the save-time keyword
overrides may assign. User references are identified by their ids; a value
of `Option.none` means the attribute holds Python `None`. The remaining
columns (id, uuid, enabled, deleted, timestamps, creation_user, site) are
not touched by `save` and are omitted. -/
structure VersionedModel where
  version : Int
  update_user : Option Nat
  effective_user : Option Nat
deriving DecidableEq

/-- `VersionedModel.save` (models.py lines 151-161). The two save-time
keyword arguments are modelled by their popped values
(`kwargs.pop("update_user", None)` and `kwargs.pop("effective_user", None)`),
so `Option.none` stands for "absent or explicitly None". Faithful to the
source, BOTH assignments are gated on `update_user is not None`: the guard
on line 159 tests `update_user`, not `effective_user`. -/
def VersionedModel.save (self : VersionedModel) (update_user effective_user : Option Nat) :
    VersionedModel :=
  let self1 := { self with version := self.version + 1 }
  let self2 :=
    match update_user with
    | some u => { self1 with update_user := some u }
    | Option.none => self1
  match update_user with
  | some _ => { self2 with effective_user := effective_user }
  | Option.none => self2

/-! ## models.py: managers -/

/-- A persisted row, reduced to the attributes the manager helpers consult:
a surrogate id (to distinguish rows) and the `name` column. -/
structure Row where
  id : Nat
  name : String
deriving DecidableEq

/-- The two Django lookup failures relevant to the manager helpers. -/
inductive DjangoErr where
  | doesNotExist
  | multipleObjectsReturned
deriving DecidableEq

/-- Django's `Manager.get`: exactly one row must satisfy the criteria; an
empty result raises `DoesNotExist` and two or more matches raise
`MultipleObjectsReturned`. -/
def managerGet (db : List Row) (p : Row → Bool) : Except DjangoErr Row :=
  match db.filter p with
  | [] => Except.error DjangoErr.doesNotExist
  | [r] => Except.ok r
  | _ => Except.error DjangoErr.multipleObjectsReturned

/-- `VersionedModelManager.get_or_none` (models.py lines 101-113): perform
the lookup, returning `None` when `DoesNotExist` is raised; any other
failure (i.e. `MultipleObjectsReturned`) is not caught and propagates. -/
def get_or_none (db : List Row) (p : Row → Bool) : Except DjangoErr (Option Row) :=
  match managerGet db p with
  | Except.ok r => Except.ok (some r)
  | Except.error DjangoErr.doesNotExist => Except.ok Option.none
  | Except.error e => Except.error e

/-- A `logger.warn` record emitted by `named_instance`: the class name of
the manager's model and the requested name. -/
structure LogEntry where
  modelType : String
  requestedName : String
deriving DecidableEq

/-- `NamedModelManager.named_instance` (models.py lines 167-175): look the
row up by exact name; when that raises `DoesNotExist`, log one warning with
the model type and the requested name and retry with the sentinel name
`UNKNOWN`, letting any failure of the retry propagate. A
`MultipleObjectsReturned` from the first lookup is not caught. The result
pairs the lookup outcome with the list of emitted log records. -/
def named_instance (modelType : String) (db : List Row) (n : String) :
    Except DjangoErr Row × List LogEntry :=
  match managerGet db (fun r => r.name == n) with
  | Except.ok r => (Except.ok r, [])
  | Except.error DjangoErr.doesNotExist =>
    (managerGet db (fun r => r.name == UNKNOWN), [{ modelType := modelType, requestedName := n }])
  | Except.error e => (Except.error e, [])

/-! ## fields.py: validators -/

/-- A Django `ValidationError`, carrying its (translatable) message. -/
structure ValidationError where
  message : String
deriving DecidableEq

/-- `latitude_validator` (fields.py lines 284-291): valid iff
`-90 < value < 90`; otherwise raise `ValidationError` with the latitude
message; on success return the value unchanged. Numeric values are
modelled as rationals. -/
def latitude_validator (value : Rat) : Except ValidationError Rat :=
  if -90 < value ∧ value < 90 then
    Except.ok value
  else
    Except.error { message := "latitude not in range of -90 < value < 90" }

/-- `longitude_validator` (fields.py lines 294-301): valid iff
`-180 < value < 180`; on failure the source's message text (a copy-paste
slip) still reads `-90 < value < 90`. -/
def longitude_validator (value : Rat) : Except ValidationError Rat :=
  if -180 < value ∧ value < 180 then
    Except.ok value
  else
    Except.error { message := "longitude not in range of -90 < value < 90" }

/-! ## fields.py: the field factory catalog

Each factory builds its type-specific `defaults` dictionary, merges the
caller's keyword overrides over it with `defaults.update(kwargs)`, and
passes the merged options to the underlying field constructor. A `Field`
records the constructor used, its positional arguments (the relation target
for relational fields) and the final keyword-option dictionary. Keyword
names that coincide with a factory's named parameters (for example
`max_digits` for `decimal_field`, or `db_table` and the second positional
for `many_to_many_field`) bind to those parameters in Python, so the
`kwargs` dictionary of a Python call never contains them. -/

/-- A configured field descriptor: constructor name, positional arguments,
and the keyword options passed to the constructor. -/
structure Field where
  ctor : String
  args : List PyVal
  options : Dict
deriving DecidableEq

/-- `auto_field` (fields.py lines 31-41). -/
def auto_field_defaults : Dict :=
  [("blank", PyVal.bool true), ("null", PyVal.bool false),
   ("primary_key", PyVal.bool true), ("unique", PyVal.bool true)]

def auto_field (kwargs : Dict) : Field :=
  { ctor := "AutoField", args := [], options := Dict.update auto_field_defaults kwargs }

/-- `boolean_field` (fields.py lines 44-53). -/
def boolean_field_defaults : Dict :=
  [("blank", PyVal.bool false), ("null", PyVal.bool false), ("default", PyVal.bool false)]

def boolean_field (kwargs : Dict) : Field :=
  { ctor := "BooleanField", args := [], options := Dict.update boolean_field_defaults kwargs }

/-- `file_field` (fields.py lines 56-60): `models.FileField(upload_to=upload_to, **kwargs)`,
no defaults of its own. -/
def file_field (upload_to : PyVal) (kwargs : Dict) : Field :=
  { ctor := "FileField", args := [],
    options := Dict.update [("upload_to", upload_to)] kwargs }

def CHAR_FIELD_MAX_LENGTH : Int := 1024

/-- `char_field` (fields.py lines 65-75). -/
def char_field_defaults : Dict :=
  [("max_length", PyVal.int CHAR_FIELD_MAX_LENGTH), ("blank", PyVal.bool false),
   ("null", PyVal.bool false), ("unique", PyVal.bool false)]

def char_field (kwargs : Dict) : Field :=
  { ctor := "CharField", args := [], options := Dict.update char_field_defaults kwargs }

/-- `date_field` (fields.py lines 78-87). -/
def date_field_defaults : Dict :=
  [("auto_now", PyVal.bool false), ("auto_now_add", PyVal.bool false),
   ("blank", PyVal.bool false), ("null", PyVal.bool false)]

def date_field (kwargs : Dict) : Field :=
  { ctor := "DateField", args := [], options := Dict.update date_field_defaults kwargs }

/-- `datetime_field` (fields.py lines 90-99). -/
def datetime_field (kwargs : Dict) : Field :=
  { ctor := "DateTimeField", args := [], options := Dict.update date_field_defaults kwargs }

/-- The defaults dictionary `decimal_field` builds from its two required
positional parameters (fields.py lines 106-110). -/
def decimal_field_defaults (max_digits decimal_places : PyVal) : Dict :=
  [("decimal_places", decimal_places), ("max_digits", max_digits),
   ("default", PyVal.int 0), ("blank", PyVal.bool false), ("null", PyVal.bool false)]

/-- `decimal_field` (fields.py lines 102-112): requires `max_digits` and
`decimal_places`. -/
def decimal_field (max_digits decimal_places : PyVal) (kwargs : Dict) : Field :=
  { ctor := "DecimalField", args := [],
    options := Dict.update (decimal_field_defaults max_digits decimal_places) kwargs }

/-- `floating_point_field` (fields.py lines 115-124). -/
def floating_point_field_defaults : Dict :=
  [("blank", PyVal.bool false), ("null", PyVal.bool false), ("default", PyVal.float 0)]

def floating_point_field (kwargs : Dict) : Field :=
  { ctor := "FloatField", args := [],
    options := Dict.update floating_point_field_defaults kwargs }

/-- `foreign_key_field` (fields.py lines 127-138): requires the target
entity `to`; `on_delete=models.PROTECT`. -/
def foreign_key_field_defaults : Dict :=
  [("blank", PyVal.bool false), ("db_constraint", PyVal.bool true),
   ("null", PyVal.bool false), ("on_delete", PyVal.ref "PROTECT")]

def foreign_key_field (target : String) (kwargs : Dict) : Field :=
  { ctor := "ForeignKey", args := [PyVal.ref target],
    options := Dict.update foreign_key_field_defaults kwargs }

/-- `image_field` (fields.py lines 141-145): pure passthrough,
`models.ImageField(**kwargs)`. -/
def image_field (kwargs : Dict) : Field :=
  { ctor := "ImageField", args := [], options := kwargs }

/-- `integer_field` (fields.py lines 148-156). -/
def integer_field_defaults : Dict :=
  [("default", PyVal.int 0), ("blank", PyVal.bool false), ("null", PyVal.bool false)]

def integer_field (kwargs : Dict) : Field :=
  { ctor := "IntegerField", args := [], options := Dict.update integer_field_defaults kwargs }

/-- `ip_address_field` (fields.py lines 159-167). -/
def ip_address_field_defaults : Dict :=
  [("null", PyVal.bool false), ("blank", PyVal.bool false)]

def ip_address_field (kwargs : Dict) : Field :=
  { ctor := "GenericIPAddressField", args := [],
    options := Dict.update ip_address_field_defaults kwargs }

/-- `many_to_many_field`'s defaults dictionary (fields.py lines 174-177). -/
def many_to_many_field_defaults : Dict :=
  [("db_constraint", PyVal.bool true), ("null", PyVal.bool true), ("blank", PyVal.bool true)]

/-- `many_to_many_field` (fields.py lines 170-190): requires the target
entity and the join-table name (both bind to named parameters, so `kwargs`
never carries the keys `to` or `db_table` in a Python call). The source
pops `related_name` from `kwargs`, merges the rest over the defaults, and
computes `related_name or '{}_set'.format(inflection.camelize(class_name(to)))`
— a falsy popped value falls back to the camelized default. The target is
identified by its class name, as `utils.core.class_name` extracts it. -/
def many_to_many_field (target : String) (tbl : String) (kwargs : Dict) : Field :=
  let related_popped := Dict.get kwargs "related_name"
  let kwargs2 := Dict.erase kwargs "related_name"
  let defaults2 := Dict.update many_to_many_field_defaults kwargs2
  let related_name :=
    match related_popped with
    | some v => if v.truthy then v else PyVal.str (camelize target ++ "_set")
    | Option.none => PyVal.str (camelize target ++ "_set")
  { ctor := "ManyToManyField", args := [PyVal.ref target],
    options :=
      Dict.update [("db_table", PyVal.str tbl), ("related_name", related_name)] defaults2 }

/-- `one_to_one_field` (fields.py lines 193-204): requires the target
entity; same defaults shape as `foreign_key_field`. -/
def one_to_one_field (target : String) (kwargs : Dict) : Field :=
  { ctor := "OneToOneField", args := [PyVal.ref target],
    options := Dict.update foreign_key_field_defaults kwargs }

/-- `small_integer_field` (fields.py lines 207-215). -/
def small_integer_field (kwargs : Dict) : Field :=
  { ctor := "SmallIntegerField", args := [],
    options := Dict.update integer_field_defaults kwargs }

/-- `text_field` (fields.py lines 218-227). -/
def text_field_defaults : Dict :=
  [("blank", PyVal.bool true), ("null", PyVal.bool true), ("unique", PyVal.bool false)]

def text_field (kwargs : Dict) : Field :=
  { ctor := "TextField", args := [], options := Dict.update text_field_defaults kwargs }

def URL_FIELD_MAX_LENGTH : Int := 255

/-- `url_field` (fields.py lines 232-241). -/
def url_field_defaults : Dict :=
  [("max_length", PyVal.int URL_FIELD_MAX_LENGTH), ("null", PyVal.bool false),
   ("blank", PyVal.bool false)]

def url_field (kwargs : Dict) : Field :=
  { ctor := "URLField", args := [], options := Dict.update url_field_defaults kwargs }

/-- `uuid_field` (fields.py lines 244-254): `default=uuid.uuid4`, i.e. a
reference to the random-UUID generator called once per row. -/
def uuid_field_defaults : Dict :=
  [("unique", PyVal.bool true), ("default", PyVal.ref "uuid.uuid4"),
   ("db_index", PyVal.bool true), ("editable", PyVal.bool false)]

def uuid_field (kwargs : Dict) : Field :=
  { ctor := "UUIDField", args := [], options := Dict.update uuid_field_defaults kwargs }

/-- Shared defaults dictionary of `annotation_field` and `description_field`
(fields.py lines 261-264 and 273-276). -/
def annotation_field_defaults : Dict :=
  [("blank", PyVal.bool false), ("null", PyVal.bool false), ("unique", PyVal.bool false)]

/-- `annotation_field` (fields.py lines 257-266): delegates to `text_field`. -/
def annotation_field (kwargs : Dict) : Field :=
  text_field (Dict.update annotation_field_defaults kwargs)

/-- `description_field` (fields.py lines 269-278): delegates to `text_field`
with the same forced overrides as `annotation_field`. -/
def description_field (kwargs : Dict) : Field :=
  text_field (Dict.update annotation_field_defaults kwargs)

def GEO_LOCATION_MAX_DIGITS : Int := 9

def GEO_LOCATION_DECIMAL_PLACES : Int := 6

/-- `geo_location_field`'s own defaults (fields.py lines 308-310). -/
def geo_location_field_defaults : Dict :=
  [("max_digits", PyVal.int GEO_LOCATION_MAX_DIGITS),
   ("decimal_places", PyVal.int GEO_LOCATION_DECIMAL_PLACES)]

/-- `geo_location_field` (fields.py lines 304-312): merges overrides over
its defaults and calls `decimal_field(**defaults)`. In that Python call the
keys `max_digits` and `decimal_places` of the merged dictionary bind to
`decimal_field`'s named parameters (they are always present, since the
merge starts from both) and the remaining keys become its `kwargs`. -/
def geo_location_field (kwargs : Dict) : Field :=
  let d := Dict.update geo_location_field_defaults kwargs
  decimal_field ((Dict.get d "max_digits").getD PyVal.none)
    ((Dict.get d "decimal_places").getD PyVal.none)
    (Dict.erase (Dict.erase d "max_digits") "decimal_places")

/-- `longitude_field` (fields.py lines 315-319): delegates to
`geo_location_field` with `validators=[longitude_validator]`. -/
def longitude_field (kwargs : Dict) : Field :=
  geo_location_field
    (Dict.update [("validators", PyVal.refList ["longitude_validator"])] kwargs)

/-- `latitude_field` (fields.py lines 322-326): delegates to
`geo_location_field` with `validators=[latitude_validator]`. -/
def latitude_field (kwargs : Dict) : Field :=
  geo_location_field
    (Dict.update [("validators", PyVal.refList ["latitude_validator"])] kwargs)

/-- `mac_address_field` (fields.py lines 329-338). -/
def mac_address_field_defaults : Dict :=
  [("unique", PyVal.bool true), ("null", PyVal.bool false), ("blank", PyVal.bool false)]

def mac_address_field (kwargs : Dict) : Field :=
  { ctor := "MACAddressField", args := [],
    options := Dict.update mac_address_field_defaults kwargs }

def NAME_FIELD_MAX_LENGTH : Int := 255

/-- `name_field`'s defaults (fields.py lines 347-352). -/
def name_field_defaults : Dict :=
  [("max_length", PyVal.int NAME_FIELD_MAX_LENGTH), ("unique", PyVal.bool true),
   ("db_index", PyVal.bool true), ("null", PyVal.bool false), ("blank", PyVal.bool false)]

/-- `name_field` (fields.py lines 343-354): delegates to `char_field`. -/
def name_field (kwargs : Dict) : Field :=
  char_field (Dict.update name_field_defaults kwargs)

/-- `user_field` (fields.py lines 357-361): `foreign_key_field(User, **kwargs)`,
targeting the identity `User` entity. -/
def user_field (kwargs : Dict) : Field :=
  foreign_key_field "User" kwargs

def USER_AGENT_FIELD_MAX_LENGTH : Int := 512

/-- `user_agent_field`'s defaults (fields.py lines 371-374). -/
def user_agent_field_defaults : Dict :=
  [("null", PyVal.bool false), ("blank", PyVal.bool false),
   ("max_length", PyVal.int USER_AGENT_FIELD_MAX_LENGTH)]

/-- `user_agent_field` (fields.py lines 367-376): delegates to `char_field`. -/
def user_agent_field (kwargs : Dict) : Field :=
  char_field (Dict.update user_agent_field_defaults kwargs)

def DEFAULT_TIME_ZONE : String := "America/New_York"

/-- `time_zone_field` (fields.py lines 382-391). -/
def time_zone_field_defaults : Dict :=
  [("null", PyVal.bool false), ("blank", PyVal.bool false),
   ("default", PyVal.str DEFAULT_TIME_ZONE)]

def time_zone_field (kwargs : Dict) : Field :=
  { ctor := "TimeZoneField", args := [],
    options := Dict.update time_zone_field_defaults kwargs }

/-- `phone_number_field` (fields.py lines 394-402). -/
def phone_number_field_defaults : Dict :=
  [("null", PyVal.bool false), ("blank", PyVal.bool false)]

def phone_number_field (kwargs : Dict) : Field :=
  { ctor := "PhoneNumberField", args := [],
    options := Dict.update phone_number_field_defaults kwargs }

/-- `email_field` (fields.py lines 405-413). -/
def email_field (kwargs : Dict) : Field :=
  { ctor := "EmailField", args := [],
    options := Dict.update phone_number_field_defaults kwargs }

def _im_schemes : List String := ["im", "xmpp"]

/-- `instance_messaging_field`'s defaults (fields.py lines 422-425). -/
def instance_messaging_field_defaults : Dict :=
  [("null", PyVal.bool false), ("blank", PyVal.bool false),
   ("validators", PyVal.urlValidators _im_schemes)]

/-- `instance_messaging_field` (fields.py lines 418-427): delegates to
`url_field` with a scheme-restricted `URLValidator`. -/
def instance_messaging_field (kwargs : Dict) : Field :=
  url_field (Dict.update instance_messaging_field_defaults kwargs)

def _url_schemes : List String := ["http", "https", "ftp", "ftps"]

def _other_schemes : List String := ["tel", "mailto", "urn"]

def _uri_schemes : List String := _im_schemes ++ _url_schemes ++ _other_schemes

/-- `uri_field`'s defaults (fields.py lines 440-443). -/
def uri_field_defaults : Dict :=
  [("null", PyVal.bool false), ("blank", PyVal.bool false),
   ("validators", PyVal.urlValidators _uri_schemes)]

/-- `uri_field` (fields.py lines 434-445): delegates to `url_field`. -/
def uri_field (kwargs : Dict) : Field :=
  url_field (Dict.update uri_field_defaults kwargs)

/-- `priority_field` (fields.py lines 448-455). -/
def priority_field_defaults : Dict :=
  [("default", PyVal.int 0)]

def priority_field (kwargs : Dict) : Field :=
  { ctor := "PositiveSmallIntegerField", args := [],
    options := Dict.update priority_field_defaults kwargs }

/-! ## Spec-side default tables

The following dictionaries are written from the WORDS of the
specification's §4.1 per-type default table (not from the source), to be
compared with the source-derived factories: each `spec_*_defaults` spells
out one row of that table. Where a row says "delegates to" another
factory, the row's dictionary is built by overriding the delegate's row,
exactly as the row states. -/

/-- Spec row "auto id": blank=true, null=false, primary-key=true, unique=true. -/
def spec_auto_defaults : Dict :=
  [("blank", PyVal.bool true), ("null", PyVal.bool false),
   ("primary_key", PyVal.bool true), ("unique", PyVal.bool true)]

/-- Spec row "boolean": blank=false, null=false, default=false. -/
def spec_boolean_defaults : Dict :=
  [("blank", PyVal.bool false), ("null", PyVal.bool false), ("default", PyVal.bool false)]

/-- Spec row "file": required upload-destination argument; no other forced
defaults. -/
def spec_file_defaults (upload_to : PyVal) : Dict :=
  [("upload_to", upload_to)]

/-- Spec row "char": max length = 1024, blank=false, null=false, unique=false. -/
def spec_char_defaults : Dict :=
  [("max_length", PyVal.int 1024), ("blank", PyVal.bool false),
   ("null", PyVal.bool false), ("unique", PyVal.bool false)]

/-- Spec rows "date" and "datetime": auto-now=false, auto-now-add=false,
blank=false, null=false. -/
def spec_date_defaults : Dict :=
  [("auto_now", PyVal.bool false), ("auto_now_add", PyVal.bool false),
   ("blank", PyVal.bool false), ("null", PyVal.bool false)]

/-- Spec row "decimal": requires max-digits and decimal-places arguments;
default value=0, blank=false, null=false. -/
def spec_decimal_defaults (max_digits decimal_places : PyVal) : Dict :=
  [("max_digits", max_digits), ("decimal_places", decimal_places),
   ("default", PyVal.int 0), ("blank", PyVal.bool false), ("null", PyVal.bool false)]

/-- Spec row "floating point": blank=false, null=false, default=0.0. -/
def spec_float_defaults : Dict :=
  [("blank", PyVal.bool false), ("null", PyVal.bool false), ("default", PyVal.float 0)]

/-- Spec rows "foreign key" and "one-to-one": requires target-entity
argument; blank=false, database-constraint=true, null=false,
on-delete=protect. Also the row "user reference", which delegates here
targeting the identity-user entity. -/
def spec_foreign_key_defaults : Dict :=
  [("blank", PyVal.bool false), ("db_constraint", PyVal.bool true),
   ("null", PyVal.bool false), ("on_delete", PyVal.ref "PROTECT")]

/-- Spec row "image": passthrough, no forced defaults. -/
def spec_image_defaults : Dict := []

/-- Spec rows "integer" and "small integer": default=0, blank=false, null=false. -/
def spec_integer_defaults : Dict :=
  [("default", PyVal.int 0), ("blank", PyVal.bool false), ("null", PyVal.bool false)]

/-- Spec row "IP address": null=false, blank=false. Also the rows
"phone number" and "email", which list the same two defaults. -/
def spec_ip_defaults : Dict :=
  [("null", PyVal.bool false), ("blank", PyVal.bool false)]

/-- Spec row "many-to-many": requires target entity and join-table-name
arguments; database-constraint=true, null=true, blank=true;
reverse-relation name defaults to the camelized target class name suffixed
with `_set` when not explicitly supplied. -/
def spec_many_to_many_defaults (target tbl : String) : Dict :=
  [("db_constraint", PyVal.bool true), ("null", PyVal.bool true),
   ("blank", PyVal.bool true), ("db_table", PyVal.str tbl),
   ("related_name", PyVal.str (camelize target ++ "_set"))]

/-- Spec row "text": blank=true, null=true, unique=false. -/
def spec_text_defaults : Dict :=
  [("blank", PyVal.bool true), ("null", PyVal.bool true), ("unique", PyVal.bool false)]

/-- Spec row "url": max length = 255, null=false, blank=false. -/
def spec_url_defaults : Dict :=
  [("max_length", PyVal.int 255), ("null", PyVal.bool false), ("blank", PyVal.bool false)]

/-- Spec row "uuid": unique=true, default = a freshly generated random UUID
per row (the `uuid.uuid4` generator), database-indexed, not editable via
forms. -/
def spec_uuid_defaults : Dict :=
  [("unique", PyVal.bool true), ("default", PyVal.ref "uuid.uuid4"),
   ("db_index", PyVal.bool true), ("editable", PyVal.bool false)]

/-- Spec rows "annotation" and "description": delegate to the text factory
with blank=false, null=false, unique=false. -/
def spec_annotation_defaults : Dict :=
  Dict.update spec_text_defaults
    [("blank", PyVal.bool false), ("null", PyVal.bool false), ("unique", PyVal.bool false)]

/-- Spec row "geo-coordinate (base)": max digits = 9, decimal places = 6,
delegates to the decimal factory. -/
def spec_geo_defaults : Dict :=
  spec_decimal_defaults (PyVal.int 9) (PyVal.int 6)

/-- Spec row "latitude": delegates to the geo-coordinate factory with a
validator enforcing strictly -90 < value < 90 (the `latitude_validator`). -/
def spec_latitude_defaults : Dict :=
  Dict.update spec_geo_defaults [("validators", PyVal.refList ["latitude_validator"])]

/-- Spec row "longitude": delegates to the geo-coordinate factory with a
validator enforcing strictly -180 < value < 180 (the `longitude_validator`). -/
def spec_longitude_defaults : Dict :=
  Dict.update spec_geo_defaults [("validators", PyVal.refList ["longitude_validator"])]

/-- Spec row "MAC address": unique=true, null=false, blank=false. -/
def spec_mac_defaults : Dict :=
  [("unique", PyVal.bool true), ("null", PyVal.bool false), ("blank", PyVal.bool false)]

/-- Spec row "name": max length = 255, unique=true, database-indexed,
null=false, blank=false; delegates to the char factory. -/
def spec_name_defaults : Dict :=
  Dict.update spec_char_defaults
    [("max_length", PyVal.int 255), ("unique", PyVal.bool true),
     ("db_index", PyVal.bool true), ("null", PyVal.bool false), ("blank", PyVal.bool false)]

/-- Spec row "user-agent string": null=false, blank=false, max length = 512;
delegates to the char factory. -/
def spec_user_agent_defaults : Dict :=
  Dict.update spec_char_defaults
    [("null", PyVal.bool false), ("blank", PyVal.bool false), ("max_length", PyVal.int 512)]

/-- Spec row "time zone": null=false, blank=false, default = `"America/New_York"`. -/
def spec_time_zone_defaults : Dict :=
  [("null", PyVal.bool false), ("blank", PyVal.bool false),
   ("default", PyVal.str "America/New_York")]

/-- Spec row "instant-messaging URI": null=false, blank=false, validated
against allowed schemes im, xmpp; delegates to the url factory. -/
def spec_im_defaults : Dict :=
  Dict.update spec_url_defaults
    [("null", PyVal.bool false), ("blank", PyVal.bool false),
     ("validators", PyVal.urlValidators ["im", "xmpp"])]

/-- Spec row "generic URI": null=false, blank=false, validated against
allowed schemes im, xmpp, http, https, ftp, ftps, tel, mailto, urn;
delegates to the url factory. -/
def spec_uri_defaults : Dict :=
  Dict.update spec_url_defaults
    [("null", PyVal.bool false), ("blank", PyVal.bool false),
     ("validators",
      PyVal.urlValidators
        ["im", "xmpp", "http", "https", "ftp", "ftps", "tel", "mailto", "urn"])]

/-- Spec row "priority": default=0 (carried by a non-negative small-integer
field). -/
def spec_priority_defaults : Dict :=
  [("default", PyVal.int 0)]

/-! ## The override contract -/

/-- An option-producing function `f` (a factory's keyword-to-options map)
satisfies the override contract with effective default table `eff` when,
for every keyword dictionary, each supplied key is carried through with the
caller's value and every unsupplied key falls back to `eff`. -/
def overrideSpec (f : Dict → Dict) (eff : Dict) : Prop :=
  ∀ kw : Dict, (Dict.keys kw).Nodup → ∀ k : String,
    Dict.get (f kw) k =
      match Dict.get kw k with
      | some v => some v
      | Option.none => Dict.get eff k

/-- The own `defaults` dictionary of `longitude_field` (fields.py lines
316-317). -/
def longitude_field_defaults : Dict :=
  [("validators", PyVal.refList ["longitude_validator"])]

/-- The own `defaults` dictionary of `latitude_field` (fields.py lines
323-324). -/
def latitude_field_defaults : Dict :=
  [("validators", PyVal.refList ["latitude_validator"])]

/-- The effective option table produced by `geo_location_field` with no
overrides: the decimal defaults at 9 digits and 6 decimal places. -/
def geo_effective : Dict :=
  [("decimal_places", PyVal.int 6), ("max_digits", PyVal.int 9),
   ("default", PyVal.int 0), ("blank", PyVal.bool false), ("null", PyVal.bool false)]

/-- The field factory catalog, for quantifying over "every field factory":
each entry pairs the factory's keyword-to-options map (with representative
values for any required positional arguments) with the factory's own
`defaults` dictionary from the source (empty for `file_field` and
`image_field`, which build none; for the purely delegating `user_field` the
delegate's dictionary). -/
def factory_catalog : List ((Dict → Dict) × Dict) :=
  [(fun kw => (auto_field kw).options, auto_field_defaults),
   (fun kw => (boolean_field kw).options, boolean_field_defaults),
   (fun kw => (file_field (PyVal.str "photos") kw).options, []),
   (fun kw => (char_field kw).options, char_field_defaults),
   (fun kw => (date_field kw).options, date_field_defaults),
   (fun kw => (datetime_field kw).options, date_field_defaults),
   (fun kw => (decimal_field (PyVal.int 12) (PyVal.int 4) kw).options,
    decimal_field_defaults (PyVal.int 12) (PyVal.int 4)),
   (fun kw => (floating_point_field kw).options, floating_point_field_defaults),
   (fun kw => (foreign_key_field "Site" kw).options, foreign_key_field_defaults),
   (fun kw => (image_field kw).options, []),
   (fun kw => (integer_field kw).options, integer_field_defaults),
   (fun kw => (ip_address_field kw).options, ip_address_field_defaults),
   (fun kw => (many_to_many_field "User" "join_tbl" kw).options, many_to_many_field_defaults),
   (fun kw => (one_to_one_field "Site" kw).options, foreign_key_field_defaults),
   (fun kw => (small_integer_field kw).options, integer_field_defaults),
   (fun kw => (text_field kw).options, text_field_defaults),
   (fun kw => (url_field kw).options, url_field_defaults),
   (fun kw => (uuid_field kw).options, uuid_field_defaults),
   (fun kw => (annotation_field kw).options, annotation_field_defaults),
   (fun kw => (description_field kw).options, annotation_field_defaults),
   (fun kw => (geo_location_field kw).options, geo_location_field_defaults),
   (fun kw => (longitude_field kw).options, longitude_field_defaults),
   (fun kw => (latitude_field kw).options, latitude_field_defaults),
   (fun kw => (mac_address_field kw).options, mac_address_field_defaults),
   (fun kw => (name_field kw).options, name_field_defaults),
   (fun kw => (user_field kw).options, foreign_key_field_defaults),
   (fun kw => (user_agent_field kw).options, user_agent_field_defaults),
   (fun kw => (time_zone_field kw).options, time_zone_field_defaults),
   (fun kw => (phone_number_field kw).options, phone_number_field_defaults),
   (fun kw => (email_field kw).options, phone_number_field_defaults),
   (fun kw => (instance_messaging_field kw).options, instance_messaging_field_defaults),
   (fun kw => (uri_field kw).options, uri_field_defaults),
   (fun kw => (priority_field kw).options, priority_field_defaults)]

/-! ## Dictionary lemmas -/

theorem get_setKey_self (d : Dict) (k : String) (v : PyVal) :
    Dict.get (Dict.setKey d k v) k = some v := by
  induction d with
  | nil => simp [Dict.setKey, Dict.get]
  | cons p rest ih =>
    by_cases h : p.1 = k
    · simp [Dict.setKey, Dict.get, h]
    · simp [Dict.setKey, Dict.get, h, ih]

theorem get_setKey_ne (d : Dict) (k : String) (v : PyVal) (k2 : String) (h : k2 ≠ k) :
    Dict.get (Dict.setKey d k v) k2 = Dict.get d k2 := by
  have h2 : ¬(k = k2) := Ne.symm h
  induction d with
  | nil => simp [Dict.setKey, Dict.get, h2]
  | cons p rest ih =>
    by_cases hp : p.1 = k
    · simp [Dict.setKey, Dict.get, hp, h2]
    · simp [Dict.setKey, Dict.get, hp, ih]

theorem mem_keys_setKey (d : Dict) (k : String) (v : PyVal) (k2 : String) :
    k2 ∈ Dict.keys (Dict.setKey d k v) ↔ k2 ∈ Dict.keys d ∨ k2 = k := by
  induction d with
  | nil => simp [Dict.setKey, Dict.keys]
  | cons p rest ih =>
    obtain ⟨k0, v0⟩ := p
    simp only [Dict.setKey]
    by_cases hp : k0 = k
    · rw [if_pos hp]
      subst hp
      simp [Dict.keys]
      tauto
    · rw [if_neg hp]
      simp only [Dict.keys, List.map_cons, List.mem_cons] at ih ⊢
      rw [ih]
      tauto

theorem nodup_setKey (d : Dict) (k : String) (v : PyVal)
    (h : (Dict.keys d).Nodup) : (Dict.keys (Dict.setKey d k v)).Nodup := by
  induction d with
  | nil => simp [Dict.setKey, Dict.keys]
  | cons p rest ih =>
    simp only [Dict.keys, List.map_cons, List.nodup_cons] at h
    by_cases hp : p.1 = k
    · subst hp
      simpa [Dict.setKey, Dict.keys, List.nodup_cons] using h
    · simp only [Dict.setKey, if_neg hp, Dict.keys, List.map_cons, List.nodup_cons]
      refine ⟨?_, ih h.2⟩
      intro hmem
      rcases (mem_keys_setKey rest k v p.1).mp hmem with hm | hm
      · exact h.1 hm
      · exact hp hm

theorem get_eq_none_of_not_mem_keys (d : Dict) (k : String) (h : k ∉ Dict.keys d) :
    Dict.get d k = Option.none := by
  induction d with
  | nil => rfl
  | cons p rest ih =>
    simp only [Dict.keys, List.map_cons, List.mem_cons] at h
    push_neg at h
    simp [Dict.get, Ne.symm h.1, ih (by simpa [Dict.keys] using h.2)]

theorem update_nil (d : Dict) : Dict.update d [] = d := rfl

theorem update_cons (d : Dict) (k : String) (v : PyVal) (e : Dict) :
    Dict.update d ((k, v) :: e) = Dict.update (Dict.setKey d k v) e := rfl

theorem get_update (d e : Dict) (he : (Dict.keys e).Nodup) (k : String) :
    Dict.get (Dict.update d e) k =
      match Dict.get e k with
      | some v => some v
      | Option.none => Dict.get d k := by
  induction e generalizing d with
  | nil => simp [update_nil, Dict.get]
  | cons p rest ih =>
    obtain ⟨k0, v0⟩ := p
    simp only [Dict.keys, List.map_cons, List.nodup_cons] at he
    rw [update_cons, ih (Dict.setKey d k0 v0) he.2]
    by_cases hk : k0 = k
    · subst hk
      have hrest : Dict.get rest k0 = Option.none :=
        get_eq_none_of_not_mem_keys rest k0 he.1
      simp [Dict.get, hrest, get_setKey_self]
    · simp [Dict.get, hk, get_setKey_ne d k0 v0 k (fun h => hk h.symm)]

theorem nodup_update (d e : Dict) (hd : (Dict.keys d).Nodup) :
    (Dict.keys (Dict.update d e)).Nodup := by
  induction e generalizing d with
  | nil => simpa [update_nil] using hd
  | cons p rest ih =>
    rw [update_cons]
    exact ih _ (nodup_setKey d p.1 p.2 hd)

theorem get_erase_ne (d : Dict) (k k2 : String) (h : k2 ≠ k) :
    Dict.get (Dict.erase d k) k2 = Dict.get d k2 := by
  have h2 : ¬(k = k2) := Ne.symm h
  induction d with
  | nil => rfl
  | cons p rest ih =>
    by_cases hp : p.1 = k
    · simp [Dict.erase, hp, Dict.get, h2]
    · simp [Dict.erase, hp, Dict.get, ih]

theorem get_erase_self (d : Dict) (k : String) (hd : (Dict.keys d).Nodup) :
    Dict.get (Dict.erase d k) k = Option.none := by
  induction d with
  | nil => rfl
  | cons p rest ih =>
    simp only [Dict.keys, List.map_cons, List.nodup_cons] at hd
    by_cases hp : p.1 = k
    · subst hp
      simp only [Dict.erase, if_pos rfl]
      exact get_eq_none_of_not_mem_keys rest p.1 hd.1
    · simp [Dict.erase, hp, Dict.get, ih hd.2]

theorem keys_erase_sublist (d : Dict) (k : String) :
    (Dict.keys (Dict.erase d k)).Sublist (Dict.keys d) := by
  induction d with
  | nil => simp [Dict.erase, Dict.keys]
  | cons p rest ih =>
    by_cases hp : p.1 = k
    · simp only [Dict.erase, if_pos hp, Dict.keys, List.map_cons]
      exact List.Sublist.cons _ (List.Sublist.refl _)
    · simp only [Dict.erase, if_neg hp, Dict.keys, List.map_cons]
      exact ih.cons₂ _

theorem nodup_erase (d : Dict) (k : String) (hd : (Dict.keys d).Nodup) :
    (Dict.keys (Dict.erase d k)).Nodup :=
  hd.sublist (keys_erase_sublist d k)

theorem erase_of_get_none (d : Dict) (k : String) (h : Dict.get d k = Option.none) :
    Dict.erase d k = d := by
  induction d with
  | nil => rfl
  | cons p rest ih =>
    by_cases hp : p.1 = k
    · simp [Dict.get, hp] at h
    · simp only [Dict.get, if_neg hp] at h
      simp [Dict.erase, hp, ih h]

/-! ## Override-contract lemmas -/

theorem update_overrideSpec (D : Dict) :
    overrideSpec (fun kw => Dict.update D kw) D :=
  fun kw hkw k => get_update D kw hkw k

theorem id_overrideSpec : overrideSpec (fun kw => kw) [] := by
  intro kw _ k
  cases h : Dict.get kw k <;> simp [h, Dict.get]

theorem comp_overrideSpec (f : Dict → Dict) (eff A : Dict)
    (hA : (Dict.keys A).Nodup) (hf : overrideSpec f eff) :
    overrideSpec (fun kw => f (Dict.update A kw)) (f A) := by
  intro kw hkw k
  rw [hf (Dict.update A kw) (nodup_update A kw hA) k,
    get_update A kw hkw k, hf A hA k]
  cases hkwk : Dict.get kw k <;> simp

theorem overrideSpec_single (f : Dict → Dict) (eff : Dict)
    (hf : overrideSpec f eff) (k : String) (v : PyVal) :
    Dict.get (f [(k, v)]) k = some v ∧
      ∀ k2 : String, k2 ≠ k → Dict.get (f [(k, v)]) k2 = Dict.get (f []) k2 := by
  have hnd : (Dict.keys ([(k, v)] : Dict)).Nodup := by simp [Dict.keys]
  constructor
  · rw [hf [(k, v)] hnd k]
    simp [Dict.get]
  · intro k2 hk2
    rw [hf [(k, v)] hnd k2, hf [] (by simp [Dict.keys]) k2]
    simp [Dict.get, Ne.symm hk2]

/-- `geo_location_field` satisfies the override contract with the decimal
defaults at 9 digits and 6 places as its effective table: the keys
`max_digits` and `decimal_places` travel through `decimal_field`'s named
parameters, the rest through its keyword dictionary. -/
theorem geo_overrideSpec :
    overrideSpec (fun kw => (geo_location_field kw).options) geo_effective := by
  intro kw hkw k
  have hG : (Dict.keys geo_location_field_defaults).Nodup := by
    simp [geo_location_field_defaults, Dict.keys]
  have hd : (Dict.keys (Dict.update geo_location_field_defaults kw)).Nodup :=
    nodup_update _ kw hG
  have hd2 : (Dict.keys
      (Dict.erase (Dict.erase (Dict.update geo_location_field_defaults kw) "max_digits")
        "decimal_places")).Nodup :=
    nodup_erase _ _ (nodup_erase _ _ hd)
  show Dict.get (Dict.update _ _) k = _
  rw [get_update _ _ hd2 k]
  by_cases hmd : k = "max_digits"
  · subst hmd
    rw [get_erase_ne _ "decimal_places" "max_digits" (by decide),
      get_erase_self _ "max_digits" hd]
    rw [get_update _ kw hkw "max_digits"] at *
    cases hk : Dict.get kw "max_digits" <;>
      simp [hk, decimal_field_defaults, Dict.get, geo_location_field_defaults,
        geo_effective, GEO_LOCATION_MAX_DIGITS]
  · by_cases hdp : k = "decimal_places"
    · subst hdp
      rw [get_erase_self _ "decimal_places" (nodup_erase _ _ hd)]
      rw [get_update _ kw hkw "decimal_places"] at *
      cases hk : Dict.get kw "decimal_places" <;>
        simp [hk, decimal_field_defaults, Dict.get, geo_location_field_defaults,
          geo_effective, GEO_LOCATION_DECIMAL_PLACES]
    · rw [get_erase_ne _ "decimal_places" k hdp, get_erase_ne _ "max_digits" k hmd,
        get_update _ kw hkw k]
      cases hk : Dict.get kw k <;>
        simp [hk, decimal_field_defaults, Dict.get, geo_location_field_defaults,
          geo_effective, Ne.symm hmd, Ne.symm hdp]

/-- `many_to_many_field` satisfies the override contract relative to its
no-override option set whenever the keyword dictionary does not carry
`related_name` (the popped key). -/
theorem m2m_get_spec (target tbl : String) (kw : Dict)
    (hkw : (Dict.keys kw).Nodup) (hrn : Dict.get kw "related_name" = Option.none)
    (k : String) :
    Dict.get (many_to_many_field target tbl kw).options k =
      match Dict.get kw k with
      | some v => some v
      | Option.none => Dict.get (many_to_many_field target tbl []).options k := by
  have hM : (Dict.keys many_to_many_field_defaults).Nodup := by
    simp [many_to_many_field_defaults, Dict.keys]
  have herase : Dict.erase kw "related_name" = kw := erase_of_get_none kw _ hrn
  show Dict.get (Dict.update _ _) k = _
  rw [show (many_to_many_field target tbl []).options =
      Dict.update [("db_table", PyVal.str tbl),
        ("related_name", PyVal.str (camelize target ++ "_set"))]
        many_to_many_field_defaults from rfl]
  simp only [many_to_many_field, hrn, herase]
  rw [get_update _ (Dict.update many_to_many_field_defaults kw) (nodup_update _ kw hM) k,
    get_update _ kw hkw k,
    get_update _ many_to_many_field_defaults hM k]
  cases hk : Dict.get kw k <;> cases hMk : Dict.get many_to_many_field_defaults k <;> simp

/-! ## Claim theorems -/

/-- C1: the claim states that whenever an `effective_user` keyword argument
is supplied to `VersionedModel.save`, it is assigned to the effective-user
reference regardless of whether `update_user` is also supplied. The code
violates this: the assignment on models.py line 160 is guarded by
`if update_user is not None` (line 159), so a call supplying only
`effective_user` leaves the attribute unchanged. This theorem evaluates
the code at the failing input: saving with `effective_user` = user 7 and no
`update_user` does not assign user 7. -/
theorem claim_C1_effective_user_dropped :
    (VersionedModel.save
        { version := 0, update_user := Option.none, effective_user := Option.none }
        Option.none (some 7)).effective_user = Option.none ∧
    (VersionedModel.save
        { version := 0, update_user := Option.none, effective_user := Option.none }
        Option.none (some 7)).effective_user ≠ some 7 := by
  decide

/-- C2: when `update_user` is supplied but `effective_user` is not,
`kwargs.pop("effective_user", None)` yields `None` and the guard on
`update_user` passes, so the instance's effective-user reference is
assigned `None`, overwriting any previously held value. -/
theorem claim_C2_effective_user_overwritten_with_none
    (s : VersionedModel) (u : Nat) :
    (VersionedModel.save s (some u) Option.none).effective_user = Option.none :=
  rfl

/-- C3: the claim states that `db_table_for_app_and_class` may be called
without a `site_label` argument, defaulting it to `SITE_LABEL`, and that the
`meta` decorator's two-argument call therefore succeeds. The code violates
this: the parameter has no default (models.py line 45), so the decorator's
internal two-argument call (line 73) raises `TypeError`. The body's
`site_label or constants.SITE_LABEL` fallback only handles an explicit
`None`/empty argument, shown by the second conjunct. -/
theorem claim_C3_meta_table_call_raises :
    pythonCallOk db_table_for_app_and_class_sig meta_table_call_argcount = false ∧
    db_table_for_app_and_class "billing" "order_item" Option.none =
      SITE_LABEL ++ "_billing_order_item" := by
  decide

/-- C4: every invocation of `VersionedModel.save` increments the version
counter by exactly one, whatever save-time keyword overrides are supplied;
the counter's field (`fields.integer_field()`) starts from the initial
default value 0. -/
theorem claim_C4_version_increments_by_one :
    (∀ (s : VersionedModel) (update_user effective_user : Option Nat),
      (VersionedModel.save s update_user effective_user).version = s.version + 1) ∧
    Dict.get (integer_field []).options "default" = some (PyVal.int 0) := by
  constructor
  · intro s uu eu
    cases uu <;> rfl
  · decide

/-- C5: every field factory in the catalog, called with no keyword
overrides, produces a descriptor whose option set exactly equals the
documented per-type defaults of the spec's §4.1 table (with representative
values for required positional arguments); the relational factories target
the documented entities and the priority factory uses the non-negative
small-integer constructor. -/
theorem claim_C5_factory_defaults_match_spec :
    Dict.sameAs (auto_field []).options spec_auto_defaults = true ∧
    Dict.sameAs (boolean_field []).options spec_boolean_defaults = true ∧
    Dict.sameAs (file_field (PyVal.str "photos") []).options
      (spec_file_defaults (PyVal.str "photos")) = true ∧
    Dict.sameAs (char_field []).options spec_char_defaults = true ∧
    Dict.sameAs (date_field []).options spec_date_defaults = true ∧
    Dict.sameAs (datetime_field []).options spec_date_defaults = true ∧
    Dict.sameAs (decimal_field (PyVal.int 12) (PyVal.int 4) []).options
      (spec_decimal_defaults (PyVal.int 12) (PyVal.int 4)) = true ∧
    Dict.sameAs (floating_point_field []).options spec_float_defaults = true ∧
    Dict.sameAs (foreign_key_field "Site" []).options spec_foreign_key_defaults = true ∧
    Dict.sameAs (image_field []).options spec_image_defaults = true ∧
    Dict.sameAs (integer_field []).options spec_integer_defaults = true ∧
    Dict.sameAs (ip_address_field []).options spec_ip_defaults = true ∧
    Dict.sameAs (many_to_many_field "User" "join_tbl" []).options
      (spec_many_to_many_defaults "User" "join_tbl") = true ∧
    Dict.sameAs (one_to_one_field "Site" []).options spec_foreign_key_defaults = true ∧
    Dict.sameAs (small_integer_field []).options spec_integer_defaults = true ∧
    Dict.sameAs (text_field []).options spec_text_defaults = true ∧
    Dict.sameAs (url_field []).options spec_url_defaults = true ∧
    Dict.sameAs (uuid_field []).options spec_uuid_defaults = true ∧
    Dict.sameAs (annotation_field []).options spec_annotation_defaults = true ∧
    Dict.sameAs (description_field []).options spec_annotation_defaults = true ∧
    Dict.sameAs (geo_location_field []).options spec_geo_defaults = true ∧
    Dict.sameAs (longitude_field []).options spec_longitude_defaults = true ∧
    Dict.sameAs (latitude_field []).options spec_latitude_defaults = true ∧
    Dict.sameAs (mac_address_field []).options spec_mac_defaults = true ∧
    Dict.sameAs (name_field []).options spec_name_defaults = true ∧
    Dict.sameAs (user_field []).options spec_foreign_key_defaults = true ∧
    Dict.sameAs (user_agent_field []).options spec_user_agent_defaults = true ∧
    Dict.sameAs (time_zone_field []).options spec_time_zone_defaults = true ∧
    Dict.sameAs (phone_number_field []).options spec_ip_defaults = true ∧
    Dict.sameAs (email_field []).options spec_ip_defaults = true ∧
    Dict.sameAs (instance_messaging_field []).options spec_im_defaults = true ∧
    Dict.sameAs (uri_field []).options spec_uri_defaults = true ∧
    Dict.sameAs (priority_field []).options spec_priority_defaults = true ∧
    (foreign_key_field "Site" []).args = [PyVal.ref "Site"] ∧
    (user_field []).args = [PyVal.ref "User"] ∧
    (many_to_many_field "User" "join_tbl" []).args = [PyVal.ref "User"] ∧
    (priority_field []).ctor = "PositiveSmallIntegerField" := by
  decide

/-- C6: for every factory in the catalog and every keyword override whose
key appears in that factory's defaults dictionary, the produced descriptor
carries the caller's value for that key (shallow replacement), while every
other option equals its value in the no-override call. -/
theorem claim_C6_override_replaces_default :
    ∀ p ∈ factory_catalog, ∀ (k : String) (v : PyVal),
      (Dict.get p.2 k).isSome = true →
      Dict.get (p.1 [(k, v)]) k = some v ∧
        ∀ k2 : String, k2 ≠ k → Dict.get (p.1 [(k, v)]) k2 = Dict.get (p.1 []) k2 := by
  intro p hp k v hk
  fin_cases hp
  · exact overrideSpec_single _ _ (update_overrideSpec auto_field_defaults) k v
  · exact overrideSpec_single _ _ (update_overrideSpec boolean_field_defaults) k v
  · exact overrideSpec_single _ _
      (update_overrideSpec [("upload_to", PyVal.str "photos")]) k v
  · exact overrideSpec_single _ _ (update_overrideSpec char_field_defaults) k v
  · exact overrideSpec_single _ _ (update_overrideSpec date_field_defaults) k v
  · exact overrideSpec_single _ _ (update_overrideSpec date_field_defaults) k v
  · exact overrideSpec_single _ _
      (update_overrideSpec (decimal_field_defaults (PyVal.int 12) (PyVal.int 4))) k v
  · exact overrideSpec_single _ _ (update_overrideSpec floating_point_field_defaults) k v
  · exact overrideSpec_single _ _ (update_overrideSpec foreign_key_field_defaults) k v
  · exact overrideSpec_single _ _ id_overrideSpec k v
  · exact overrideSpec_single _ _ (update_overrideSpec integer_field_defaults) k v
  · exact overrideSpec_single _ _ (update_overrideSpec ip_address_field_defaults) k v
  · have hkne : k ≠ "related_name" := by
      intro h
      subst h
      exact absurd hk (by decide)
    have hnd : (Dict.keys ([(k, v)] : Dict)).Nodup := by simp [Dict.keys]
    have hrn : Dict.get ([(k, v)] : Dict) "related_name" = Option.none := by
      simp [Dict.get, hkne]
    constructor
    · rw [m2m_get_spec "User" "join_tbl" [(k, v)] hnd hrn k]
      simp [Dict.get]
    · intro k2 hk2
      rw [m2m_get_spec "User" "join_tbl" [(k, v)] hnd hrn k2]
      simp [Dict.get, Ne.symm hk2]
  · exact overrideSpec_single _ _ (update_overrideSpec foreign_key_field_defaults) k v
  · exact overrideSpec_single _ _ (update_overrideSpec integer_field_defaults) k v
  · exact overrideSpec_single _ _ (update_overrideSpec text_field_defaults) k v
  · exact overrideSpec_single _ _ (update_overrideSpec url_field_defaults) k v
  · exact overrideSpec_single _ _ (update_overrideSpec uuid_field_defaults) k v
  · exact overrideSpec_single _ _
      (comp_overrideSpec _ _ annotation_field_defaults (by decide)
        (update_overrideSpec text_field_defaults)) k v
  · exact overrideSpec_single _ _
      (comp_overrideSpec _ _ annotation_field_defaults (by decide)
        (update_overrideSpec text_field_defaults)) k v
  · exact overrideSpec_single _ _ geo_overrideSpec k v
  · exact overrideSpec_single _ _
      (comp_overrideSpec _ _ longitude_field_defaults (by decide) geo_overrideSpec) k v
  · exact overrideSpec_single _ _
      (comp_overrideSpec _ _ latitude_field_defaults (by decide) geo_overrideSpec) k v
  · exact overrideSpec_single _ _ (update_overrideSpec mac_address_field_defaults) k v
  · exact overrideSpec_single _ _
      (comp_overrideSpec _ _ name_field_defaults (by decide)
        (update_overrideSpec char_field_defaults)) k v
  · exact overrideSpec_single _ _ (update_overrideSpec foreign_key_field_defaults) k v
  · exact overrideSpec_single _ _
      (comp_overrideSpec _ _ user_agent_field_defaults (by decide)
        (update_overrideSpec char_field_defaults)) k v
  · exact overrideSpec_single _ _ (update_overrideSpec time_zone_field_defaults) k v
  · exact overrideSpec_single _ _ (update_overrideSpec phone_number_field_defaults) k v
  · exact overrideSpec_single _ _ (update_overrideSpec phone_number_field_defaults) k v
  · exact overrideSpec_single _ _
      (comp_overrideSpec _ _ instance_messaging_field_defaults (by decide)
        (update_overrideSpec url_field_defaults)) k v
  · exact overrideSpec_single _ _
      (comp_overrideSpec _ _ uri_field_defaults (by decide)
        (update_overrideSpec url_field_defaults)) k v
  · exact overrideSpec_single _ _ (update_overrideSpec priority_field_defaults) k v

/-- Witness for C6 at a concrete input: the auto factory with the
`unique` key overridden carries the caller's value. -/
theorem claim_C6_witness :
    Dict.get (auto_field [("unique", PyVal.int 7)]).options "unique" =
      some (PyVal.int 7) :=
  (claim_C6_override_replaces_default
    (fun kw => (auto_field kw).options, auto_field_defaults)
    (List.mem_cons_self _ _) "unique" (PyVal.int 7) (by decide)).1

/-- C7: `latitude_validator` returns its argument unchanged on the open
interval (-90, 90) and raises `ValidationError` at or beyond the bounds;
`longitude_validator` does the same for the open interval (-180, 180). -/
theorem claim_C7_coordinate_validators (v : Rat) :
    (-90 < v → v < 90 → latitude_validator v = Except.ok v) ∧
    (v ≤ -90 ∨ 90 ≤ v →
      latitude_validator v =
        Except.error { message := "latitude not in range of -90 < value < 90" }) ∧
    (-180 < v → v < 180 → longitude_validator v = Except.ok v) ∧
    (v ≤ -180 ∨ 180 ≤ v →
      longitude_validator v =
        Except.error { message := "longitude not in range of -90 < value < 90" }) := by
  refine ⟨?_, ?_, ?_, ?_⟩
  · intro h1 h2
    unfold latitude_validator
    rw [if_pos ⟨h1, h2⟩]
  · intro h
    have hn : ¬(-90 < v ∧ v < 90) := by
      rcases h with h3 | h3
      · intro hc
        exact absurd hc.1 (not_lt.mpr h3)
      · intro hc
        exact absurd hc.2 (not_lt.mpr h3)
    unfold latitude_validator
    rw [if_neg hn]
  · intro h1 h2
    unfold longitude_validator
    rw [if_pos ⟨h1, h2⟩]
  · intro h
    have hn : ¬(-180 < v ∧ v < 180) := by
      rcases h with h3 | h3
      · intro hc
        exact absurd hc.1 (not_lt.mpr h3)
      · intro hc
        exact absurd hc.2 (not_lt.mpr h3)
    unfold longitude_validator
    rw [if_neg hn]

/-- Witness for C7 at the spec's example inputs: 45 and 89.999 pass the
latitude validator, 90 and -90 fail it; 0 passes the longitude validator,
180 and -180 fail it. -/
theorem claim_C7_witness :
    latitude_validator 45 = Except.ok 45 ∧
    latitude_validator 90 =
      Except.error { message := "latitude not in range of -90 < value < 90" } ∧
    latitude_validator (-90) =
      Except.error { message := "latitude not in range of -90 < value < 90" } ∧
    latitude_validator (89999 / 1000) = Except.ok (89999 / 1000) ∧
    longitude_validator 0 = Except.ok 0 ∧
    longitude_validator 180 =
      Except.error { message := "longitude not in range of -90 < value < 90" } ∧
    longitude_validator (-180) =
      Except.error { message := "longitude not in range of -90 < value < 90" } :=
  ⟨(claim_C7_coordinate_validators 45).1 (by norm_num) (by norm_num),
   (claim_C7_coordinate_validators 90).2.1 (Or.inr (by norm_num)),
   (claim_C7_coordinate_validators (-90)).2.1 (Or.inl (by norm_num)),
   (claim_C7_coordinate_validators (89999 / 1000)).1 (by norm_num) (by norm_num),
   (claim_C7_coordinate_validators 0).2.2.1 (by norm_num) (by norm_num),
   (claim_C7_coordinate_validators 180).2.2.2 (Or.inr (by norm_num)),
   (claim_C7_coordinate_validators (-180)).2.2.2 (Or.inl (by norm_num))⟩

/-- C8: `named_instance` returns the row whose name equals the argument
when exactly one exists; when none exists it emits exactly one warning
carrying the model type and the requested name and returns the `UNKNOWN`
row; and when no `UNKNOWN` row exists either, the `DoesNotExist` failure of
the fallback lookup propagates (with the warning still emitted). -/
theorem claim_C8_named_instance (modelType : String) (db : List Row) (n : String) :
    (∀ r : Row, db.filter (fun x => x.name == n) = [r] →
      named_instance modelType db n = (Except.ok r, [])) ∧
    (db.filter (fun x => x.name == n) = [] →
      ∀ u : Row, db.filter (fun x => x.name == UNKNOWN) = [u] →
        named_instance modelType db n =
          (Except.ok u, [{ modelType := modelType, requestedName := n }])) ∧
    (db.filter (fun x => x.name == n) = [] →
      db.filter (fun x => x.name == UNKNOWN) = [] →
        named_instance modelType db n =
          (Except.error DjangoErr.doesNotExist,
            [{ modelType := modelType, requestedName := n }])) := by
  refine ⟨?_, ?_, ?_⟩
  · intro r hr
    simp [named_instance, managerGet, hr]
  · intro h0 u hu
    simp [named_instance, managerGet, h0, hu]
  · intro h0 h1
    simp [named_instance, managerGet, h0, h1]

/-- Witness for C8 on a concrete table: a present name is returned
directly; a missing name falls back to the `UNKNOWN` row with one warning;
with no `UNKNOWN` row the failure propagates. -/
theorem claim_C8_witness :
    named_instance "Country" [{ id := 1, name := "alpha" }, { id := 2, name := "UNKNOWN" }]
      "alpha" = (Except.ok { id := 1, name := "alpha" }, []) ∧
    named_instance "Country" [{ id := 1, name := "alpha" }, { id := 2, name := "UNKNOWN" }]
      "missing" =
      (Except.ok { id := 2, name := "UNKNOWN" },
        [{ modelType := "Country", requestedName := "missing" }]) ∧
    named_instance "Country" [{ id := 1, name := "alpha" }] "missing" =
      (Except.error DjangoErr.doesNotExist,
        [{ modelType := "Country", requestedName := "missing" }]) :=
  ⟨(claim_C8_named_instance "Country" _ "alpha").1 { id := 1, name := "alpha" } (by decide),
   (claim_C8_named_instance "Country" _ "missing").2.1 (by decide)
     { id := 2, name := "UNKNOWN" } (by decide),
   (claim_C8_named_instance "Country" _ "missing").2.2 (by decide) (by decide)⟩

/-- C9: `get_or_none` returns the matching instance when exactly one row
satisfies the criteria, returns `None` instead of raising when no row
matches, and does not suppress the `MultipleObjectsReturned` failure when
two or more rows match. -/
theorem claim_C9_get_or_none (db : List Row) (p : Row → Bool) :
    (∀ r : Row, db.filter p = [r] → get_or_none db p = Except.ok (some r)) ∧
    (db.filter p = [] → get_or_none db p = Except.ok Option.none) ∧
    (2 ≤ (db.filter p).length →
      get_or_none db p = Except.error DjangoErr.multipleObjectsReturned) := by
  refine ⟨?_, ?_, ?_⟩
  · intro r hr
    simp [get_or_none, managerGet, hr]
  · intro h
    simp [get_or_none, managerGet, h]
  · intro h
    cases hf : db.filter p with
    | nil =>
      rw [hf] at h
      simp at h
    | cons a rest =>
      cases rest with
      | nil =>
        rw [hf] at h
        simp at h
      | cons b rest2 =>
        simp [get_or_none, managerGet, hf]

/-- Witness for C9 on concrete result sets: empty lookup yields `None`, a
unique match is returned, a double match propagates the multiplicity
failure. -/
theorem claim_C9_witness :
    get_or_none [{ id := 1, name := "x" }, { id := 2, name := "x" }]
      (fun r => r.name == "missing") = Except.ok Option.none ∧
    get_or_none [{ id := 1, name := "x" }, { id := 2, name := "y" }]
      (fun r => r.name == "x") = Except.ok (some { id := 1, name := "x" }) ∧
    get_or_none [{ id := 1, name := "x" }, { id := 2, name := "x" }]
      (fun r => r.name == "x") = Except.error DjangoErr.multipleObjectsReturned :=
  ⟨(claim_C9_get_or_none _ _).2.1 (by decide),
   (claim_C9_get_or_none _ _).1 { id := 1, name := "x" } (by decide),
   (claim_C9_get_or_none _ _).2.2 (by decide)⟩

/-- C10: the naming helpers compose as specified: `verbose_class_name`
turns `OrderItem` into `order item`, `db_table_for_class` into
`order_item`, `db_table` with an explicit site label prefixes it, and with
no site label prefixes the shared `SITE_LABEL` constant. -/
theorem claim_C10_naming_helpers :
    verbose_class_name "OrderItem" = "order item" ∧
    db_table_for_class "OrderItem" = "order_item" ∧
    db_table "billing" "OrderItem" (some "acme") = "acme_billing_order_item" ∧
    db_table "billing" "OrderItem" Option.none = SITE_LABEL ++ "_billing_order_item" := by
  decide

end DjangoUtils
